import Mathlib

/-!
# Verification of the lucy_clone virtual try-on frontend

Shallow embedding of the pose-to-3D-transform pipeline of the
lucy_clone repository (frontend JavaScript), together with theorems
settling the specification claims about it.

JavaScript numbers are modelled as real numbers (ℝ); `undefined` /
`null` values are modelled with `Option`.  Each definition mirrors one
function of the source, keeping its name where Lean allows it.
-/

noncomputable section
open Classical

/-- JS `Math.sqrt` (frontend code only applies it to sums of squares,
which are never negative, so the NaN branch is unreachable). -/
def Math.sqrt (x : ℝ) : ℝ := Real.sqrt x

/-- JS `Math.atan2(y, x)`, the four-quadrant arctangent. -/
def Math.atan2 (y x : ℝ) : ℝ :=
  if 0 < x then Real.arctan (y / x)
  else if x < 0 ∧ 0 ≤ y then Real.arctan (y / x) + Real.pi
  else if x < 0 ∧ y < 0 then Real.arctan (y / x) - Real.pi
  else if x = 0 ∧ 0 < y then Real.pi / 2
  else if x = 0 ∧ y < 0 then -(Real.pi / 2)
  else 0

namespace Utils

/-- `Utils.clamp(value, min, max)` from the utility module:
`Math.min(Math.max(value, min), max)`. -/
def clamp (value vmin vmax : ℝ) : ℝ := min (max value vmin) vmax

/-- `Utils.ema(current, previous, alpha)` from the utility module:
`alpha * current + (1 - alpha) * previous`. -/
def ema (current previous alpha : ℝ) : ℝ :=
  alpha * current + (1 - alpha) * previous

/-- `Utils.lerp(start, end, t)` from the utility module. -/
def lerp (start stop t : ℝ) : ℝ := start + (stop - start) * t

/-- `Utils.distance2D(x1, y1, x2, y2)` from the utility module. -/
def distance2D (x1 y1 x2 y2 : ℝ) : ℝ :=
  Math.sqrt ((x2 - x1) ^ 2 + (y2 - y1) ^ 2)

end Utils

/-- One MediaPipe pose landmark: normalized coordinates plus an optional
visibility score (`visibility` may be `undefined` in JS). -/
structure Landmark where
  x : ℝ
  y : ℝ
  z : ℝ
  visibility : Option ℝ

/-- A 3-component vector, as used for Three.js position / rotation. -/
structure Vec3 where
  x : ℝ
  y : ℝ
  z : ℝ

namespace SkeletonMapper

/-- `CONFIG.SKELETON.LANDMARKS` indices used by the mapper. -/
def LANDMARK_NOSE : Nat := 0
def LANDMARK_LEFT_SHOULDER : Nat := 11
def LANDMARK_RIGHT_SHOULDER : Nat := 12
def LANDMARK_LEFT_HIP : Nat := 23
def LANDMARK_RIGHT_HIP : Nat := 24

/-- The mapper's calibration object (`this.calibration`). -/
structure Calibration where
  scaleMultiplier : ℝ
  depthMultiplier : ℝ
  verticalOffset : ℝ
  horizontalOffset : ℝ

/-- The garment scene node mutated by `update` (Three.js Object3D slice:
position, rotation, uniform scale applied to all three axes, visibility). -/
structure JacketNode where
  position : Vec3
  rotation : Vec3
  scale : Vec3
  visible : Bool

/-- The pose data object delivered to `update` by the pose tracker's
callback: `{ landmarks: ... }` where the landmark list itself may be
null. -/
structure PoseData where
  landmarks : Option (List Landmark)

/-- The mutable fields of the `SkeletonMapper` instance. `lastPosition`,
`lastRotation` and `lastScale` are `Option`s because `reset()` sets them
to `null`. -/
structure State where
  width : ℝ
  height : ℝ
  initialized : Bool
  lastPose : Option PoseData
  smoothingFactor : ℝ
  lastPosition : Option Vec3
  lastRotation : Option Vec3
  lastScale : Option ℝ
  lastUpdateTime : ℝ
  updateInterval : ℝ
  calibration : Calibration

/-- The constructor of `SkeletonMapper` (first variant of
skeleton-mapper.js, the split-layout one). -/
def new : State :=
  { width := 0
    height := 0
    initialized := false
    lastPose := none
    smoothingFactor := 0.2
    lastPosition := some ⟨0, 0, 0⟩
    lastRotation := some ⟨0, 0, 0⟩
    lastScale := some 1.0
    lastUpdateTime := 0
    updateInterval := 1000 / 60
    calibration :=
      { scaleMultiplier := 5.5
        depthMultiplier := -8.0
        verticalOffset := 0.0
        horizontalOffset := 6.0 } }

/-- `init(width, height)`. -/
def init (s : State) (width height : ℝ) : State :=
  { s with width := width, height := height, initialized := true }

/-- `arePointsVisible(points, minVisibility)`: JS
`points.every(p => p && p.visibility !== undefined && p.visibility > minVisibility)`.
The points come from array indexing and may be `undefined`. -/
def arePointsVisible (points : List (Option Landmark)) (minVisibility : ℝ) : Prop :=
  ∀ p ∈ points, ∃ lm : Landmark, p = some lm ∧
    ∃ v : ℝ, lm.visibility = some v ∧ v > minVisibility

/-- `calculatePosition(leftShoulder, rightShoulder)` (reads
`this.calibration`). -/
def calculatePosition (calibration : Calibration) (leftShoulder rightShoulder : Landmark) : Vec3 :=
  let shoulderCenterX := (leftShoulder.x + rightShoulder.x) / 2
  let shoulderCenterY := (leftShoulder.y + rightShoulder.y) / 2
  let shoulderCenterZ := (leftShoulder.z + rightShoulder.z) / 2
  { x := (shoulderCenterX - 0.5) * 5 + calibration.horizontalOffset
    y := -(shoulderCenterY - 0.5) * 5 + calibration.verticalOffset
    z := calibration.depthMultiplier + shoulderCenterZ * 2 }

/-- `calculateRotation(leftShoulder, rightShoulder, nose)`. -/
def calculateRotation (leftShoulder rightShoulder nose : Landmark) : Vec3 :=
  let dx := rightShoulder.x - leftShoulder.x
  let dy := rightShoulder.y - leftShoulder.y
  let rollAngle := Math.atan2 dy dx
  let shoulderWidth := Math.sqrt (dx * dx + dy * dy)
  let depthDiff := rightShoulder.z - leftShoulder.z
  let yawAngle := Math.atan2 depthDiff shoulderWidth * 1.5
  let shoulderCenterY := (leftShoulder.y + rightShoulder.y) / 2
  let pitchAngle := (nose.y - shoulderCenterY) * 0.3
  { x := Real.pi + pitchAngle
    y := Real.pi + yawAngle
    z := -rollAngle }

/-- `calculateScale(leftShoulder, rightShoulder)` (reads
`this.calibration.scaleMultiplier`). -/
def calculateScale (calibration : Calibration) (leftShoulder rightShoulder : Landmark) : ℝ :=
  let dx := rightShoulder.x - leftShoulder.x
  let dy := rightShoulder.y - leftShoulder.y
  let shoulderWidth := Math.sqrt (dx * dx + dy * dy)
  let scale := shoulderWidth * calibration.scaleMultiplier
  Utils.clamp scale 1.0 4.5

/-- `smoothPosition(position)`: the returned vector is also the new
`this.lastPosition` (both when the previous one was null and when it was
present). -/
def smoothPosition (lastPosition : Option Vec3) (position : Vec3) (smoothingFactor : ℝ) : Vec3 :=
  match lastPosition with
  | none => position
  | some lp =>
    { x := Utils.ema position.x lp.x smoothingFactor
      y := Utils.ema position.y lp.y smoothingFactor
      z := Utils.ema position.z lp.z smoothingFactor }

/-- `smoothRotation(rotation)`. -/
def smoothRotation (lastRotation : Option Vec3) (rotation : Vec3) (smoothingFactor : ℝ) : Vec3 :=
  match lastRotation with
  | none => rotation
  | some lr =>
    { x := Utils.ema rotation.x lr.x smoothingFactor
      y := Utils.ema rotation.y lr.y smoothingFactor
      z := Utils.ema rotation.z lr.z smoothingFactor }

/-- `smoothScale(scale)`: JS `if (!this.lastScale)` is true both for
`null` and for the number `0` (both falsy). -/
def smoothScale (lastScale : Option ℝ) (scale : ℝ) (smoothingFactor : ℝ) : ℝ :=
  match lastScale with
  | none => scale
  | some ls => if ls = 0 then scale else Utils.ema scale ls smoothingFactor

/-- `update(poseData)` of the first skeleton-mapper variant.  `jacket` is
`modelLoader.getModel()` (null when the garment model is not loaded);
`now` is `performance.now()`.  Returns the new mapper state and the new
garment node.  The guards, in source order: initialization / null pose
data, the 30-FPS-comment throttle (interval `1000/60`), missing jacket,
missing or short landmark list, and the shoulder-visibility check.  A
`TypeError` thrown inside the `try` block (e.g. `nose` missing) is
caught before any jacket mutation, which the wildcard match arm models. -/
def update (s : State) (jacket : Option JacketNode) (now : ℝ) (poseData : Option PoseData) :
    State × Option JacketNode :=
  match poseData with
  | none => (s, jacket)
  | some pd =>
    if s.initialized = false then (s, jacket)
    else if now - s.lastUpdateTime < s.updateInterval then (s, jacket)
    else
      let s := { s with lastUpdateTime := now }
      match jacket with
      | none => (s, jacket)
      | some jk =>
        match pd.landmarks with
        | none => (s, some jk)
        | some landmarks =>
          if landmarks.length < 33 then (s, some jk)
          else
            let leftShoulder := landmarks.get? LANDMARK_LEFT_SHOULDER
            let rightShoulder := landmarks.get? LANDMARK_RIGHT_SHOULDER
            let nose := landmarks.get? LANDMARK_NOSE
            if ¬ arePointsVisible [leftShoulder, rightShoulder] 0.3 then (s, some jk)
            else
              match leftShoulder, rightShoulder, nose with
              | some ls, some rs, some no =>
                let position := calculatePosition s.calibration ls rs
                let rotation := calculateRotation ls rs no
                let scale := calculateScale s.calibration ls rs
                let smoothedPosition := smoothPosition s.lastPosition position s.smoothingFactor
                let smoothedRotation := smoothRotation s.lastRotation rotation s.smoothingFactor
                let smoothedScale := smoothScale s.lastScale scale s.smoothingFactor
                ({ s with
                    lastPosition := some smoothedPosition
                    lastRotation := some smoothedRotation
                    lastScale := some smoothedScale
                    lastPose := some pd },
                  some { position := smoothedPosition
                         rotation := smoothedRotation
                         scale := ⟨smoothedScale, smoothedScale, smoothedScale⟩
                         visible := true })
              | _, _, _ => (s, some jk)

end SkeletonMapper

namespace PoseTracker

/-- `CONFIG.SKELETON.SMOOTHING_FACTOR`. -/
def SMOOTHING_FACTOR : ℝ := 0.5

/-- The landmark-related fields of the `PoseTracker` instance. -/
structure State where
  landmarks : Option (List Landmark)
  worldLandmarks : Option (List Landmark)
  smoothedLandmarks : Option (List Landmark)

/-- The constructor of `PoseTracker`. -/
def new : State :=
  { landmarks := none, worldLandmarks := none, smoothedLandmarks := none }

/-- The MediaPipe results object delivered to `onResults`. -/
structure PoseResults where
  poseLandmarks : Option (List Landmark)
  poseWorldLandmarks : Option (List Landmark)

/-- `smoothLandmarks(current, previous, alpha)`: JS
`current.map((landmark, i) => ... previous[i] ...)`.  `none` models the
`TypeError` thrown when `previous` is shorter than `current`
(`previous[i]` undefined); the detector always delivers 33 landmarks, so
that branch is unreachable in the integrated system. -/
def smoothLandmarks : List Landmark → List Landmark → ℝ → Option (List Landmark)
  | [], _, _ => some []
  | _ :: _, [], _ => none
  | c :: cs, p :: ps, alpha =>
    (smoothLandmarks cs ps alpha).map fun rest =>
      { x := Utils.ema c.x p.x alpha
        y := Utils.ema c.y p.y alpha
        z := Utils.ema c.z p.z alpha
        visibility := c.visibility } :: rest

/-- `onResults(results)`: the landmark-state effect of the detector
callback.  When the detector delivers no pose, `landmarks` and
`worldLandmarks` are assigned `null` and the method returns — note that
`smoothedLandmarks` is left as it was.  The outer `Option` models the
exception escaping the method if `smoothLandmarks` throws. -/
def onResults (s : State) (results : PoseResults) : Option State :=
  match results.poseLandmarks with
  | none => some { s with landmarks := none, worldLandmarks := none }
  | some lms =>
    let s1 := { s with landmarks := some lms,
                       worldLandmarks := results.poseWorldLandmarks }
    match s1.smoothedLandmarks with
    | some prev =>
      if SMOOTHING_FACTOR > 0 then
        (smoothLandmarks lms prev SMOOTHING_FACTOR).map fun sm =>
          { s1 with smoothedLandmarks := some sm }
      else some { s1 with smoothedLandmarks := some lms }
    | none => some { s1 with smoothedLandmarks := some lms }

/-- `isPoseDetected()`: `this.smoothedLandmarks !== null`. -/
def isPoseDetected (s : State) : Bool := s.smoothedLandmarks.isSome

/-- `getLandmark(name)` at a resolved landmark index: null when no
smoothed landmarks are held or the index misses. -/
def getLandmark (s : State) (index : Nat) : Option Landmark :=
  match s.smoothedLandmarks with
  | none => none
  | some lms => lms.get? index

end PoseTracker

namespace AIPipeline

/-- `CONFIG.AI_PIPELINE` constants used by the blend logic. -/
def MAX_BLEND_ALPHA : ℝ := 0.7
def BLEND_TRANSITION_DURATION : ℝ := 500
def MAX_RECONNECT_ATTEMPTS : Nat := 3

/-- A parsed WebSocket message from the enhancement server. -/
structure Message where
  type : String
  image : Option String
  error : Option String

/-- The blend-related fields of the `AIPipeline` instance.  `blendStart`
models the `startTime` captured by the `animate` closure of the
transition currently in progress (none when no transition is running). -/
structure BlendState where
  latestAIFrame : Option String
  blendAlpha : ℝ
  isBlending : Bool
  blendStart : Option ℝ

/-- `startBlend()` at time `now` (`performance.now()`): returns
immediately when a blend is already in progress, otherwise marks the
blend active and starts a new transition from `now`. -/
def startBlend (s : BlendState) (now : ℝ) : BlendState :=
  if s.isBlending then s
  else { s with isBlending := true, blendStart := some now }

/-- `handleMessage(data)` on an already-parsed message at time `now`:
a `keyframe_result` message overwrites `latestAIFrame` and calls
`startBlend()`; an `error` message is only logged. -/
def handleMessage (s : BlendState) (message : Message) (now : ℝ) : BlendState :=
  if message.type = "keyframe_result" then
    startBlend { s with latestAIFrame := message.image } now
  else s

/-- One `requestAnimationFrame` step of the `animate` closure inside
`startBlend`: eased cubic progress drives `blendAlpha`; the transition
ends (`isBlending = false`) when progress reaches 1. -/
def animateStep (s : BlendState) (currentTime : ℝ) : BlendState :=
  match s.blendStart with
  | none => s
  | some startTime =>
    let elapsed := currentTime - startTime
    let progress := min (elapsed / BLEND_TRANSITION_DURATION) 1
    let easedProgress := 1 - (1 - progress) ^ 3
    let alpha := easedProgress * MAX_BLEND_ALPHA
    if progress < 1 then { s with blendAlpha := alpha }
    else { s with blendAlpha := alpha, isBlending := false, blendStart := none }

/-- The connection-lifecycle fields of the `AIPipeline` instance.
`ws` is `some ()` while a WebSocket object is held. -/
structure ConnState where
  ws : Option Unit
  isConnected : Bool
  reconnectAttempts : Nat
  keyframeIntervalActive : Bool

/-- `stop()`: clears the keyframe interval. -/
def stop (s : ConnState) : ConnState :=
  { s with keyframeIntervalActive := false }

/-- `close()`: `stop()`, then `ws.close()` and `ws = null`, then
`isConnected = false`.  The returned flag records whether a socket was
held, in which case the browser will still fire that socket's `onclose`
handler (a client-initiated close also fires `onclose`). -/
def close (s : ConnState) : ConnState × Bool :=
  let s1 := stop s
  match s1.ws with
  | some _ => ({ s1 with ws := none, isConnected := false }, true)
  | none => ({ s1 with isConnected := false }, false)

/-- `handleDisconnect()`: under the attempt budget it increments the
counter and (after the backoff wait) calls `connect()`.  The flag
records whether a `connect()` call is issued. -/
def handleDisconnect (s : ConnState) : ConnState × Bool :=
  if s.reconnectAttempts ≥ MAX_RECONNECT_ATTEMPTS then (s, false)
  else ({ s with reconnectAttempts := s.reconnectAttempts + 1 }, true)

/-- The body of the `ws.onclose` handler installed by `connect()`:
`isConnected = false`, then `handleDisconnect()`.  There is no check of
any intentionally-closed flag. -/
def oncloseHandler (s : ConnState) : ConnState × Bool :=
  handleDisconnect { s with isConnected := false }

end AIPipeline

namespace MaterialsManager

/-- A Three.js texture as the materials code configures it:
its source URL and the tiling repeat set on it. -/
structure Texture where
  url : String
  repeatU : ℝ
  repeatV : ℝ

/-- A `THREE.MeshStandardMaterial` slice.  `mid` models JS object
identity (the `oldMaterial !== material` reference comparison); a
freshly constructed material carries a fresh `mid`. -/
structure Material where
  mid : Nat
  color : Option String
  map : Option Texture
  normalMap : Option Texture
  roughnessMap : Option Texture
  roughness : ℝ
  metalness : ℝ

/-- The garment mesh as the materials code sees it (`modelLoader`):
its current material and its visibility. -/
structure MeshState where
  material : Option Material
  visible : Bool

/-- A fabric record.  `color` present means solid-color variant;
otherwise up to three texture URLs. -/
structure FabricData where
  name : String
  color : Option String
  diffuseUrl : Option String
  normalUrl : Option String
  roughnessUrl : Option String
  roughness : Option ℝ
  metalness : Option ℝ

/-- The mutable fields of the `MaterialsManager` instance. -/
structure MgrState where
  currentMaterial : Option Material
  currentFabric : Option FabricData
  texDiffuse : Option Texture
  texNormal : Option Texture
  texRough : Option Texture

/-- GPU-resource events emitted by `applyFabric`, in program order. -/
inductive MEvent
  | attachMat (m : Material)
  | disposeMat (m : Material)

/-- JS `v || d` for an optional number: `0` is falsy, so it also falls
back to the default (`fabricData.roughness || 0.8`). -/
def orFalsyDefault (v : Option ℝ) (d : ℝ) : ℝ :=
  match v with
  | none => d
  | some x => if x = 0 then d else x

/-- `CONFIG.FABRIC.DEFAULT_REPEAT`. -/
def DEFAULT_REPEAT_U : ℝ := 2
def DEFAULT_REPEAT_V : ℝ := 2

/-- The tiling configuration applied to each loaded texture. -/
def configureTiling (t : Option Texture) : Option Texture :=
  t.map fun tx => { tx with repeatU := DEFAULT_REPEAT_U, repeatV := DEFAULT_REPEAT_V }

/-- `fabricData.xxxUrl ? this.loadTexture(url) : null`, under the load
oracle `loads` (what `THREE.TextureLoader` would deliver for each URL).
The outer `none` is a rejected promise (load failure); `some none` is
the `null` passed through `Promise.all` when no URL is configured. -/
def loadIfUrl (loads : String → Option Texture) : Option String → Option (Option Texture)
  | none => some none
  | some url => (loads url).map some

/-- `applyFabric(fabricData)`: returns the JS boolean result, the new
mesh, the new manager state, and the emitted resource events in program
order.  `fresh` is the identity of the newly allocated material.  Any
thrown error or rejected texture load lands in the `catch` block, which
reports the error and returns `false` having touched nothing. -/
def applyFabric (loads : String → Option Texture) (fresh : Nat)
    (mesh : Option MeshState) (s : MgrState) (fabricData : FabricData) :
    Bool × Option MeshState × MgrState × List MEvent :=
  match mesh with
  | none => (false, mesh, s, [])
  | some m =>
    match fabricData.color with
    | some c =>
      let material : Material :=
        { mid := fresh, color := some c, map := none, normalMap := none,
          roughnessMap := none,
          roughness := orFalsyDefault fabricData.roughness 0.8,
          metalness := orFalsyDefault fabricData.metalness 0.0 }
      let oldMaterial := m.material
      let mesh' : MeshState := { material := some material, visible := true }
      let s' := { s with currentMaterial := some material,
                         currentFabric := some fabricData }
      let events := MEvent.attachMat material ::
        (match oldMaterial with
         | some om => if om.mid ≠ material.mid then [MEvent.disposeMat om] else []
         | none => [])
      (true, some mesh', s', events)
    | none =>
      match loadIfUrl loads fabricData.diffuseUrl,
            loadIfUrl loads fabricData.normalUrl,
            loadIfUrl loads fabricData.roughnessUrl with
      | some d, some n, some r =>
        let diffuseMap := configureTiling d
        let normalMap := configureTiling n
        let roughnessMap := configureTiling r
        let material : Material :=
          { mid := fresh, color := none, map := diffuseMap,
            normalMap := normalMap, roughnessMap := roughnessMap,
            roughness := orFalsyDefault fabricData.roughness 0.8,
            metalness := orFalsyDefault fabricData.metalness 0.0 }
        let oldMaterial := m.material
        let mesh' : MeshState := { material := some material, visible := true }
        let s' := { s with currentMaterial := some material,
                           currentFabric := some fabricData,
                           texDiffuse := diffuseMap,
                           texNormal := normalMap,
                           texRough := roughnessMap }
        let events := MEvent.attachMat material ::
          (match oldMaterial with
           | some om => if om.mid ≠ material.mid then [MEvent.disposeMat om] else []
           | none => [])
        (true, some mesh', s', events)
      | _, _, _ => (false, mesh, s, [])

/-- `getCurrentFabric()`. -/
def getCurrentFabric (s : MgrState) : Option FabricData := s.currentFabric

end MaterialsManager

namespace CompositeRenderer

/-- `CONFIG.PERFORMANCE` constants read by the render loop. -/
def TARGET_FPS : ℝ := 30
def LOW_PERFORMANCE_THRESHOLD : ℝ := 20
def ADAPTIVE_QUALITY : Bool := true

/-- `this.fpsHistorySize`. -/
def fpsHistorySize : Nat := 10

/-- The loop-relevant fields of the FPS-limited `CompositeRenderer`
variant.  `renderScale` is `CONFIG.PERFORMANCE.RENDER_SCALE`, which
`adaptiveQuality` mutates. -/
structure State where
  isRunning : Bool
  lastRenderTime : ℝ
  frameCount : Nat
  lastFpsUpdate : ℝ
  fps : ℤ
  fpsHistory : List ℤ
  renderScale : ℝ

/-- `updateFPS()` at time `now` (JS `Math.round` is `⌊x + 1/2⌋`, which
is Mathlib's `round`). -/
def updateFPS (s : State) (now : ℝ) : State :=
  let s := { s with frameCount := s.frameCount + 1 }
  let elapsed := now - s.lastFpsUpdate
  if elapsed ≥ 1000 then
    let instantFps : ℤ := round ((s.frameCount : ℝ) * 1000 / elapsed)
    let history := s.fpsHistory ++ [instantFps]
    let history := if history.length > fpsHistorySize then history.tail else history
    let fps : ℤ := round (((history.map (Int.cast : ℤ → ℝ)).sum) / (history.length : ℝ))
    { s with fpsHistory := history, fps := fps, frameCount := 0, lastFpsUpdate := now }
  else s

/-- `getAverageFPS()`. -/
def getAverageFPS (s : State) : ℝ :=
  if s.fpsHistory = [] then 30
  else ((s.fpsHistory.map (Int.cast : ℤ → ℝ)).sum) / (s.fpsHistory.length : ℝ)

/-- `adaptiveQuality()`: one-way render-scale reduction, floored at 0.5
(the `onResize` it triggers only touches the canvas, not this state). -/
def adaptiveQuality (s : State) : State :=
  if getAverageFPS s < LOW_PERFORMANCE_THRESHOLD ∧ s.renderScale > 0.5 then
    { s with renderScale := max 0.5 (s.renderScale - 0.1) }
  else s

/-- `render()` of the FPS-limited variant at vsync time `now`
(`performance.now()`).  The next animation frame is requested first; the
returned flag records whether this callback did the frame's work
(texture update, scene render, FPS bookkeeping) or skipped it. -/
def render (s : State) (now : ℝ) : State × Bool :=
  if s.isRunning = false then (s, false)
  else
    let delta := now - s.lastRenderTime
    let targetDelta := 1000 / TARGET_FPS
    if delta < targetDelta - 1 then (s, false)
    else
      let s := { s with lastRenderTime := now }
      let s := updateFPS s now
      let s := if ADAPTIVE_QUALITY then adaptiveQuality s else s
      (s, true)

end CompositeRenderer

/-! ## Helper lemmas -/

theorem Utils.clamp_mem {lo hi : ℝ} (x : ℝ) (h : lo ≤ hi) :
    lo ≤ Utils.clamp x lo hi ∧ Utils.clamp x lo hi ≤ hi :=
  ⟨le_min (le_max_right x lo) h, min_le_right _ _⟩

theorem Utils.ema_mem {lo hi c p a : ℝ} (hc1 : lo ≤ c) (hc2 : c ≤ hi)
    (hp1 : lo ≤ p) (hp2 : p ≤ hi) (ha1 : 0 ≤ a) (ha2 : a ≤ 1) :
    lo ≤ Utils.ema c p a ∧ Utils.ema c p a ≤ hi := by
  unfold Utils.ema
  constructor <;> nlinarith

/-! ## Claims -/

/-- **C5** counterexample: the claim states that with smoothing factor
`α = 0` the EMA output equals the raw current value; at
`current = 5`, `previous = 7`, `α = 0` the helper returns `7`, not `5`. -/
theorem spec_C5_counterexample : Utils.ema 5 7 0 ≠ 5 := by
  norm_num [Utils.ema]

/-- **C5** (amended): the EMA helper computes
`smoothed = α·current + (1-α)·previous_smoothed`; consequently with
`α = 1` the output equals the raw current value (no smoothing) and with
`α = 0` the output equals the previous smoothed value (frozen) — the
reverse of the endpoint semantics the claim states. -/
theorem spec_C5_ema_semantics :
    (∀ current previous alpha : ℝ,
        Utils.ema current previous alpha =
          alpha * current + (1 - alpha) * previous) ∧
    (∀ current previous : ℝ, Utils.ema current previous 1 = current) ∧
    (∀ current previous : ℝ, Utils.ema current previous 0 = previous) := by
  refine ⟨fun c p a => rfl, fun c p => ?_, fun c p => ?_⟩ <;>
    simp [Utils.ema]

/-- **C2**: for two pairs of shoulder landmarks identical except in their
image-space y-coordinates, `SkeletonMapper.calculatePosition` is strictly
decreasing in the shoulder-center image y: moving down in image space
moves the garment down (more negative) in scene space. -/
theorem spec_C2_vertical_sign_flip :
    ∀ (calibration : SkeletonMapper.Calibration) (ls rs ls' rs' : Landmark),
      ls'.x = ls.x → rs'.x = rs.x → ls'.z = ls.z → rs'.z = rs.z →
      (ls.y + rs.y) / 2 < (ls'.y + rs'.y) / 2 →
      (SkeletonMapper.calculatePosition calibration ls' rs').y <
        (SkeletonMapper.calculatePosition calibration ls rs).y := by
  intro calibration ls rs ls' rs' _ _ _ _ h
  simp only [SkeletonMapper.calculatePosition]
  linarith

/-- **C2** witness: shoulder-center image y moving from 0.3 to 0.5 moves
the computed scene-space y strictly downward. -/
theorem spec_C2_witness :
    (SkeletonMapper.calculatePosition SkeletonMapper.new.calibration
        ⟨0, 0.5, 0, none⟩ ⟨1, 0.5, 0, none⟩).y <
      (SkeletonMapper.calculatePosition SkeletonMapper.new.calibration
        ⟨0, 0.3, 0, none⟩ ⟨1, 0.3, 0, none⟩).y :=
  spec_C2_vertical_sign_flip _ _ _ _ _ rfl rfl rfl rfl (by norm_num)

/-- **C3**: `calculateScale` always lands in the fixed clamp range
`[1.0, 4.5]`, for any shoulder landmarks including coinciding shoulders;
and since `smoothScale` is a convex combination (EMA) of the clamped
value and the previous smoothed scale (initialized to `1.0` by the
constructor), the scale written to the garment node also stays in that
range whenever the previous smoothed scale is absent or itself in
range. -/
theorem spec_C3_scale_clamped :
    (∀ (calibration : SkeletonMapper.Calibration) (ls rs : Landmark)
        (lastScale : Option ℝ) (sf : ℝ),
      (∀ v, lastScale = some v → 1 ≤ v ∧ v ≤ 4.5) → 0 ≤ sf → sf ≤ 1 →
      (1 ≤ SkeletonMapper.calculateScale calibration ls rs ∧
        SkeletonMapper.calculateScale calibration ls rs ≤ 4.5) ∧
      (1 ≤ SkeletonMapper.smoothScale lastScale
            (SkeletonMapper.calculateScale calibration ls rs) sf ∧
        SkeletonMapper.smoothScale lastScale
            (SkeletonMapper.calculateScale calibration ls rs) sf ≤ 4.5)) ∧
    SkeletonMapper.new.lastScale = some 1 ∧
    SkeletonMapper.new.smoothingFactor = 0.2 := by
  refine ⟨?_, by norm_num [SkeletonMapper.new], rfl⟩
  intro calibration ls rs lastScale sf hlast hsf0 hsf1
  have hscale : 1 ≤ SkeletonMapper.calculateScale calibration ls rs ∧
      SkeletonMapper.calculateScale calibration ls rs ≤ 4.5 := by
    simp only [SkeletonMapper.calculateScale, Utils.clamp]
    exact ⟨le_min (le_trans (by norm_num) (le_max_right _ _)) (by norm_num),
      min_le_right _ _⟩
  refine ⟨hscale, ?_⟩
  cases lastScale with
  | none => simpa [SkeletonMapper.smoothScale] using hscale
  | some v =>
    have hv := hlast v rfl
    have hvne : v ≠ 0 := by intro h0; rw [h0] at hv; linarith [hv.1]
    simp only [SkeletonMapper.smoothScale, if_neg hvne]
    exact Utils.ema_mem hscale.1 hscale.2 hv.1 hv.2 hsf0 hsf1

/-- **C3** witness: coinciding shoulders (degenerate width 0) with the
default calibration and previous smoothed scale `1.0` keep the clamped
scale and the smoothed scale inside `[1, 4.5]`. -/
theorem spec_C3_witness :
    (1 ≤ SkeletonMapper.calculateScale SkeletonMapper.new.calibration
          ⟨0.4, 0.4, 0, some 0.9⟩ ⟨0.4, 0.4, 0, some 0.9⟩ ∧
      SkeletonMapper.calculateScale SkeletonMapper.new.calibration
          ⟨0.4, 0.4, 0, some 0.9⟩ ⟨0.4, 0.4, 0, some 0.9⟩ ≤ 4.5) ∧
    (1 ≤ SkeletonMapper.smoothScale (some 1)
          (SkeletonMapper.calculateScale SkeletonMapper.new.calibration
            ⟨0.4, 0.4, 0, some 0.9⟩ ⟨0.4, 0.4, 0, some 0.9⟩) 0.2 ∧
      SkeletonMapper.smoothScale (some 1)
          (SkeletonMapper.calculateScale SkeletonMapper.new.calibration
            ⟨0.4, 0.4, 0, some 0.9⟩ ⟨0.4, 0.4, 0, some 0.9⟩) 0.2 ≤ 4.5) :=
  spec_C3_scale_clamped.1 SkeletonMapper.new.calibration
    ⟨0.4, 0.4, 0, some 0.9⟩ ⟨0.4, 0.4, 0, some 0.9⟩ (some 1) 0.2
    (fun v hv => by cases hv; norm_num) (by norm_num) (by norm_num)

/-- **C4** counterexample: the claim asserts that after a loss cycle
`isPoseDetected()` returns false and no stale pose is retained; starting
from a tracker holding a smoothed pose, a detector callback with no
landmarks leaves the smoothed set in place and `isPoseDetected()` still
returns true. -/
theorem spec_C4_counterexample :
    (PoseTracker.onResults
        ⟨some [⟨0, 0, 0, none⟩], none, some [⟨0, 0, 0, none⟩]⟩
        ⟨none, none⟩).map PoseTracker.isPoseDetected = some true ∧
    PoseTracker.onResults
        ⟨some [⟨0, 0, 0, none⟩], none, some [⟨0, 0, 0, none⟩]⟩
        ⟨none, none⟩ = some ⟨none, none, some [⟨0, 0, 0, none⟩]⟩ := by
  constructor <;> simp [PoseTracker.onResults, PoseTracker.isPoseDetected]

/-- **C4** (amended): when the detector delivers no pose landmarks,
`onResults` clears only the raw and world landmark fields to null; the
smoothed landmark set is retained, so `isPoseDetected()` keeps returning
true whenever a smoothed pose was held before the loss event. -/
theorem spec_C4_pose_loss_partial_clear :
    ∀ (s : PoseTracker.State) (world : Option (List Landmark)),
      PoseTracker.onResults s ⟨none, world⟩ =
        some { s with landmarks := none, worldLandmarks := none } ∧
      (s.smoothedLandmarks.isSome = true →
        (PoseTracker.onResults s ⟨none, world⟩).map PoseTracker.isPoseDetected =
          some true) := by
  intro s world
  refine ⟨rfl, fun h => ?_⟩
  simp [PoseTracker.onResults, PoseTracker.isPoseDetected, h]

/-- **C4** witness: a tracker holding one smoothed landmark, on a loss
callback, keeps the smoothed set and stays "pose detected". -/
theorem spec_C4_witness :
    PoseTracker.onResults
        ⟨some [⟨1, 2, 3, some 0.8⟩], none, some [⟨1, 2, 3, some 0.8⟩]⟩
        ⟨none, none⟩ = some ⟨none, none, some [⟨1, 2, 3, some 0.8⟩]⟩ ∧
    (PoseTracker.onResults
        ⟨some [⟨1, 2, 3, some 0.8⟩], none, some [⟨1, 2, 3, some 0.8⟩]⟩
        ⟨none, none⟩).map PoseTracker.isPoseDetected = some true := by
  have h := spec_C4_pose_loss_partial_clear
    ⟨some [⟨1, 2, 3, some 0.8⟩], none, some [⟨1, 2, 3, some 0.8⟩]⟩ none
  exact ⟨h.1, h.2 rfl⟩

theorem AIPipeline.animateStep_blendAlpha (s : AIPipeline.BlendState)
    (t0 t : ℝ) (h : s.blendStart = some t0) :
    (AIPipeline.animateStep s t).blendAlpha =
      (1 - (1 - min ((t - t0) / AIPipeline.BLEND_TRANSITION_DURATION) 1) ^ 3) *
        AIPipeline.MAX_BLEND_ALPHA := by
  simp only [AIPipeline.animateStep, h]
  split_ifs <;> rfl

/-- **C6** counterexample: the claim asserts the blend transition is
reset and restarted from the beginning even when a previous transition
is still in progress; with a transition in progress (started at time 0,
alpha already 0.3), a new `keyframe_result` at time 1000 only swaps the
retained frame — the transition keeps its old start time and alpha and
is not restarted. -/
theorem spec_C6_counterexample :
    AIPipeline.handleMessage ⟨some "old", 0.3, true, some 0⟩
        ⟨"keyframe_result", some "new", none⟩ 1000 =
      ⟨some "new", 0.3, true, some 0⟩ ∧
    (AIPipeline.handleMessage ⟨some "old", 0.3, true, some 0⟩
        ⟨"keyframe_result", some "new", none⟩ 1000).blendStart ≠ some 1000 := by
  constructor <;> simp [AIPipeline.handleMessage, AIPipeline.startBlend]

/-- **C6** (amended): every `keyframe_result` message replaces the
retained latest frame; a blend transition is started only when none is
in progress (an in-progress transition continues unchanged — it is not
reset or restarted).  A transition started at `t0` animates the blend
alpha with cubic ease-out from 0 at `t0`, monotonically, reaching
`MAX_BLEND_ALPHA` at `t0 + BLEND_TRANSITION_DURATION`. -/
theorem spec_C6_result_blend :
    (∀ (s : AIPipeline.BlendState) (m : AIPipeline.Message) (now : ℝ),
      m.type = "keyframe_result" →
      (AIPipeline.handleMessage s m now).latestAIFrame = m.image ∧
      (s.isBlending = false →
        AIPipeline.handleMessage s m now =
          { s with latestAIFrame := m.image, isBlending := true,
                   blendStart := some now }) ∧
      (s.isBlending = true →
        AIPipeline.handleMessage s m now = { s with latestAIFrame := m.image })) ∧
    (∀ (s : AIPipeline.BlendState) (t0 : ℝ), s.blendStart = some t0 →
      (AIPipeline.animateStep s t0).blendAlpha = 0) ∧
    (∀ (s : AIPipeline.BlendState) (t0 t : ℝ), s.blendStart = some t0 →
      t0 + AIPipeline.BLEND_TRANSITION_DURATION ≤ t →
      (AIPipeline.animateStep s t).blendAlpha = AIPipeline.MAX_BLEND_ALPHA) ∧
    (∀ (s : AIPipeline.BlendState) (t0 t1 t2 : ℝ), s.blendStart = some t0 →
      t1 ≤ t2 →
      (AIPipeline.animateStep s t1).blendAlpha ≤
        (AIPipeline.animateStep s t2).blendAlpha) := by
  refine ⟨?_, ?_, ?_, ?_⟩
  · intro s m now hm
    refine ⟨?_, fun hb => ?_, fun hb => ?_⟩
    · simp [AIPipeline.handleMessage, AIPipeline.startBlend, hm]
      split_ifs <;> rfl
    · simp [AIPipeline.handleMessage, AIPipeline.startBlend, hm, hb]
    · simp [AIPipeline.handleMessage, AIPipeline.startBlend, hm, hb]
  · intro s t0 h
    rw [AIPipeline.animateStep_blendAlpha s t0 t0 h]
    norm_num
  · intro s t0 t h hle
    rw [AIPipeline.animateStep_blendAlpha s t0 t h]
    have h1 : (1:ℝ) ≤ (t - t0) / AIPipeline.BLEND_TRANSITION_DURATION := by
      rw [le_div_iff₀ (by norm_num [AIPipeline.BLEND_TRANSITION_DURATION])]
      simp only [AIPipeline.BLEND_TRANSITION_DURATION] at hle ⊢
      linarith
    rw [min_eq_right h1]
    norm_num
  · intro s t0 t1 t2 h hle
    rw [AIPipeline.animateStep_blendAlpha s t0 t1 h,
      AIPipeline.animateStep_blendAlpha s t0 t2 h]
    have hp : min ((t1 - t0) / AIPipeline.BLEND_TRANSITION_DURATION) 1 ≤
        min ((t2 - t0) / AIPipeline.BLEND_TRANSITION_DURATION) 1 := by
      simp only [AIPipeline.BLEND_TRANSITION_DURATION]
      exact min_le_min ((div_le_div_iff_of_pos_right (by norm_num)).mpr (by linarith)) le_rfl
    have hcube : (1 - min ((t2 - t0) / AIPipeline.BLEND_TRANSITION_DURATION) 1) ^ 3 ≤
        (1 - min ((t1 - t0) / AIPipeline.BLEND_TRANSITION_DURATION) 1) ^ 3 :=
      (Odd.strictMono_pow (by decide : Odd 3)).monotone (by linarith)
    simp only [AIPipeline.MAX_BLEND_ALPHA]
    nlinarith [hcube]

/-- **C6** witness: with no transition in progress, a `keyframe_result`
message stores the frame and starts a transition at the arrival time. -/
theorem spec_C6_witness :
    AIPipeline.handleMessage ⟨none, 0, false, none⟩
        ⟨"keyframe_result", some "img", none⟩ 42 =
      ⟨some "img", 0, true, some 42⟩ :=
  (spec_C6_result_blend.1 ⟨none, 0, false, none⟩
    ⟨"keyframe_result", some "img", none⟩ 42 rfl).2.1 rfl

/-- **C7**: `applyFabric` is an atomic swap — when it reports failure
(any texture of a PBR fabric fails to load, or the mesh is missing) the
mesh material, the manager state (hence `getCurrentFabric()`), and the
GPU resources are untouched; when it succeeds, the emitted resource
events are exactly one attach, optionally followed (never preceded) by
the disposal of the previous material. -/
theorem spec_C7_applyFabric_atomic :
    ∀ (loads : String → Option MaterialsManager.Texture) (fresh : Nat)
      (mesh : Option MaterialsManager.MeshState) (s : MaterialsManager.MgrState)
      (fabricData : MaterialsManager.FabricData),
      ((MaterialsManager.applyFabric loads fresh mesh s fabricData).1 = false →
        (MaterialsManager.applyFabric loads fresh mesh s fabricData).2.1 = mesh ∧
        (MaterialsManager.applyFabric loads fresh mesh s fabricData).2.2.1 = s ∧
        MaterialsManager.getCurrentFabric
            (MaterialsManager.applyFabric loads fresh mesh s fabricData).2.2.1 =
          MaterialsManager.getCurrentFabric s ∧
        (MaterialsManager.applyFabric loads fresh mesh s fabricData).2.2.2 = []) ∧
      (fabricData.color = none →
        ((∃ u, fabricData.diffuseUrl = some u ∧ loads u = none) ∨
          (∃ u, fabricData.normalUrl = some u ∧ loads u = none) ∨
          (∃ u, fabricData.roughnessUrl = some u ∧ loads u = none)) →
        (MaterialsManager.applyFabric loads fresh mesh s fabricData).1 = false) ∧
      ((MaterialsManager.applyFabric loads fresh mesh s fabricData).1 = true →
        ∃ m, (MaterialsManager.applyFabric loads fresh mesh s fabricData).2.2.2 =
            [MaterialsManager.MEvent.attachMat m] ∨
          ∃ om, (MaterialsManager.applyFabric loads fresh mesh s fabricData).2.2.2 =
            [MaterialsManager.MEvent.attachMat m,
              MaterialsManager.MEvent.disposeMat om]) := by
  intro loads fresh mesh s fabricData
  cases mesh with
  | none =>
    refine ⟨fun _ => ⟨rfl, rfl, rfl, rfl⟩, fun _ _ => rfl, fun h => ?_⟩
    exact absurd h (by simp [MaterialsManager.applyFabric])
  | some m =>
    cases hc : fabricData.color with
    | some c =>
      refine ⟨fun h => absurd h ?_, fun hc' _ => ?_, fun _ => ?_⟩
      · simp [MaterialsManager.applyFabric, hc]
      · exact absurd hc' (by simp)
      · refine ⟨⟨fresh, some c, none, none, none,
          MaterialsManager.orFalsyDefault fabricData.roughness 0.8,
          MaterialsManager.orFalsyDefault fabricData.metalness 0.0⟩, ?_⟩
        simp only [MaterialsManager.applyFabric, hc]
        cases m.material with
        | none => exact Or.inl rfl
        | some om =>
          by_cases hid : om.mid ≠ fresh
          · exact Or.inr ⟨om, by simp [hid]⟩
          · exact Or.inl (by simp [hid])
    | none =>
      cases hd : MaterialsManager.loadIfUrl loads fabricData.diffuseUrl with
      | none =>
        refine ⟨fun _ => ?_, fun _ _ => ?_, fun h => absurd h ?_⟩ <;>
          simp [MaterialsManager.applyFabric, hc, hd]
      | some d =>
        cases hn : MaterialsManager.loadIfUrl loads fabricData.normalUrl with
        | none =>
          refine ⟨fun _ => ?_, fun _ _ => ?_, fun h => absurd h ?_⟩ <;>
            simp [MaterialsManager.applyFabric, hc, hd, hn]
        | some n =>
          cases hr : MaterialsManager.loadIfUrl loads fabricData.roughnessUrl with
          | none =>
            refine ⟨fun _ => ?_, fun _ _ => ?_, fun h => absurd h ?_⟩ <;>
              simp [MaterialsManager.applyFabric, hc, hd, hn, hr]
          | some r =>
            refine ⟨fun h => absurd h ?_, fun _ hfail => ?_, fun _ => ?_⟩
            · simp [MaterialsManager.applyFabric, hc, hd, hn, hr]
            · exfalso
              rcases hfail with ⟨u, hu, hlu⟩ | ⟨u, hu, hlu⟩ | ⟨u, hu, hlu⟩
              · rw [hu] at hd; simp [MaterialsManager.loadIfUrl, hlu] at hd
              · rw [hu] at hn; simp [MaterialsManager.loadIfUrl, hlu] at hn
              · rw [hu] at hr; simp [MaterialsManager.loadIfUrl, hlu] at hr
            · refine ⟨⟨fresh, none, MaterialsManager.configureTiling d,
                MaterialsManager.configureTiling n, MaterialsManager.configureTiling r,
                MaterialsManager.orFalsyDefault fabricData.roughness 0.8,
                MaterialsManager.orFalsyDefault fabricData.metalness 0.0⟩, ?_⟩
              simp only [MaterialsManager.applyFabric, hc, hd, hn, hr]
              cases m.material with
              | none => exact Or.inl rfl
              | some om =>
                by_cases hid : om.mid ≠ fresh
                · exact Or.inr ⟨om, by simp [hid]⟩
                · exact Or.inl (by simp [hid])

/-- **C7** witness: a PBR fabric whose diffuse texture fails to load
leaves the manager state untouched and emits no resource events. -/
theorem spec_C7_witness :
    (MaterialsManager.applyFabric (fun _ => none) 0
        (some ⟨none, false⟩) ⟨none, none, none, none, none⟩
        ⟨"wool", none, some "u", none, none, none, none⟩).2.2.1 =
      ⟨none, none, none, none, none⟩ ∧
    (MaterialsManager.applyFabric (fun _ => none) 0
        (some ⟨none, false⟩) ⟨none, none, none, none, none⟩
        ⟨"wool", none, some "u", none, none, none, none⟩).2.2.2 = [] := by
  have h := spec_C7_applyFabric_atomic (fun _ => none) 0 (some ⟨none, false⟩)
    ⟨none, none, none, none, none⟩ ⟨"wool", none, some "u", none, none, none, none⟩
  have hfail := h.2.1 rfl (Or.inl ⟨"u", rfl, rfl⟩)
  exact ⟨(h.1 hfail).2.1, (h.1 hfail).2.2.2⟩

theorem CompositeRenderer.updateFPS_lastRenderTime
    (s : CompositeRenderer.State) (now : ℝ) :
    (CompositeRenderer.updateFPS s now).lastRenderTime = s.lastRenderTime := by
  simp only [CompositeRenderer.updateFPS]
  split_ifs <;> rfl

theorem CompositeRenderer.adaptiveQuality_lastRenderTime
    (s : CompositeRenderer.State) :
    (CompositeRenderer.adaptiveQuality s).lastRenderTime = s.lastRenderTime := by
  simp only [CompositeRenderer.adaptiveQuality]
  split_ifs <;> rfl

/-- **C8** counterexample: the claim asserts a callback is skipped
whenever less than `1000/targetFps` ms (33.33 ms at 30 fps) have
elapsed; a running renderer whose last accepted render was at time 0
does the full frame work at time 33 ms, because the code's skip
threshold is `1000/targetFps - 1`. -/
theorem spec_C8_counterexample :
    (CompositeRenderer.render ⟨true, 0, 0, 0, 0, [], 0.8⟩ 33).2 = true ∧
    (33:ℝ) - 0 < 1000 / CompositeRenderer.TARGET_FPS := by
  constructor
  · simp only [CompositeRenderer.render]
    rw [if_neg (by simp), if_neg (by norm_num [CompositeRenderer.TARGET_FPS])]
  · norm_num [CompositeRenderer.TARGET_FPS]

/-- **C8** (amended): the render loop skips all work for a callback when
less than `1000/targetFps - 1` ms have elapsed since the last accepted
render (leaving the state untouched and only rescheduling); hence any
two consecutive accepted renders are separated by at least
`1000/targetFps - 1` ms — one millisecond of slack short of the
claimed `1000/targetFps`. -/
theorem spec_C8_frame_cap :
    ∀ (s : CompositeRenderer.State) (now : ℝ),
      (s.isRunning = false → CompositeRenderer.render s now = (s, false)) ∧
      (now - s.lastRenderTime < 1000 / CompositeRenderer.TARGET_FPS - 1 →
        CompositeRenderer.render s now = (s, false)) ∧
      ((CompositeRenderer.render s now).2 = true →
        1000 / CompositeRenderer.TARGET_FPS - 1 ≤ now - s.lastRenderTime ∧
        (CompositeRenderer.render s now).1.lastRenderTime = now) := by
  intro s now
  refine ⟨fun h => ?_, fun h => ?_, fun h => ?_⟩
  · simp [CompositeRenderer.render, h]
  · simp only [CompositeRenderer.render]
    split_ifs <;> rfl
  · simp only [CompositeRenderer.render] at h
    by_cases h1 : s.isRunning = false
    · rw [if_pos h1] at h; exact absurd h (by simp)
    · rw [if_neg h1] at h
      by_cases h2 : now - s.lastRenderTime < 1000 / CompositeRenderer.TARGET_FPS - 1
      · rw [if_pos h2] at h; exact absurd h (by simp)
      · refine ⟨not_lt.mp h2, ?_⟩
        simp only [CompositeRenderer.render]
        rw [if_neg h1, if_neg h2]
        simp [CompositeRenderer.ADAPTIVE_QUALITY,
          CompositeRenderer.adaptiveQuality_lastRenderTime,
          CompositeRenderer.updateFPS_lastRenderTime]

/-- **C8** witness: a callback 10 ms after the last accepted render is
skipped with the renderer state unchanged. -/
theorem spec_C8_witness :
    CompositeRenderer.render ⟨true, 0, 0, 0, 0, [], 0.8⟩ 10 =
      (⟨true, 0, 0, 0, 0, [], 0.8⟩, false) :=
  (spec_C8_frame_cap ⟨true, 0, 0, 0, 0, [], 0.8⟩ 10).2.1
    (by norm_num [CompositeRenderer.TARGET_FPS])

/-- **C9** counterexample: the claim asserts an explicit `close()` never
leads to a further `connect()` call; after `close()` on a connected
pipeline with no prior reconnect attempts, the closed socket's `onclose`
handler still runs `handleDisconnect`, which issues a `connect()`
call. -/
theorem spec_C9_counterexample :
    (AIPipeline.oncloseHandler (AIPipeline.close ⟨some (), true, 0, true⟩).1).2 =
      true := by
  simp [AIPipeline.close, AIPipeline.stop, AIPipeline.oncloseHandler,
    AIPipeline.handleDisconnect, AIPipeline.MAX_RECONNECT_ATTEMPTS]

/-- **C9** (amended): `close()` stops the keyframe interval and closes
the socket, but sets no suppression flag: the socket's `onclose` event
still fires and runs `handleDisconnect`, which issues a further
`connect()` attempt exactly when the reconnect budget is not yet
exhausted. -/
theorem spec_C9_close_not_suppressing :
    ∀ (s : AIPipeline.ConnState) (w : Unit), s.ws = some w →
      (AIPipeline.close s).2 = true ∧
      (AIPipeline.close s).1.reconnectAttempts = s.reconnectAttempts ∧
      (s.reconnectAttempts < AIPipeline.MAX_RECONNECT_ATTEMPTS →
        (AIPipeline.oncloseHandler (AIPipeline.close s).1).2 = true) ∧
      (AIPipeline.MAX_RECONNECT_ATTEMPTS ≤ s.reconnectAttempts →
        (AIPipeline.oncloseHandler (AIPipeline.close s).1).2 = false) := by
  intro s w hw
  refine ⟨?_, ?_, fun h => ?_, fun h => ?_⟩
  · simp [AIPipeline.close, AIPipeline.stop, hw]
  · simp [AIPipeline.close, AIPipeline.stop, hw]
  · simp [AIPipeline.close, AIPipeline.stop, hw, AIPipeline.oncloseHandler,
      AIPipeline.handleDisconnect, not_le.mpr h]
  · simp [AIPipeline.close, AIPipeline.stop, hw, AIPipeline.oncloseHandler,
      AIPipeline.handleDisconnect, h]

/-- **C9** witness: closing a connected pipeline with two prior
reconnect attempts (budget 3) still issues a reconnect `connect()`
call from the `onclose` handler. -/
theorem spec_C9_witness :
    (AIPipeline.close ⟨some (), true, 2, true⟩).2 = true ∧
    (AIPipeline.oncloseHandler (AIPipeline.close ⟨some (), true, 2, true⟩).1).2 =
      true := by
  have h := spec_C9_close_not_suppressing ⟨some (), true, 2, true⟩ () rfl
  exact ⟨h.1, h.2.2.1 (by norm_num [AIPipeline.MAX_RECONNECT_ATTEMPTS])⟩

/-- **C1** counterexample: the claim asserts `update` is also a no-op
whenever the landmark count is not exactly 33, but the code only guards
`landmarks.length < 33`: a snapshot of 34 fully visible landmarks (count
≠ 33) mutates the garment node (its `visible` flag flips to true, among
other changes). -/
theorem spec_C1_counterexample :
    (SkeletonMapper.update { SkeletonMapper.new with initialized := true }
        (some ⟨⟨0, 0, 0⟩, ⟨0, 0, 0⟩, ⟨1, 1, 1⟩, false⟩) 100
        (some ⟨some (List.replicate 34 ⟨0, 0, 0, some 0.9⟩)⟩)).2 ≠
      some ⟨⟨0, 0, 0⟩, ⟨0, 0, 0⟩, ⟨1, 1, 1⟩, false⟩ := by
  have hvis : SkeletonMapper.arePointsVisible
      [(List.replicate 34 (⟨0, 0, 0, some 0.9⟩ : Landmark)).get?
          SkeletonMapper.LANDMARK_LEFT_SHOULDER,
        (List.replicate 34 (⟨0, 0, 0, some 0.9⟩ : Landmark)).get?
          SkeletonMapper.LANDMARK_RIGHT_SHOULDER] 0.3 := by
    have hget11 : (List.replicate 34 (⟨0, 0, 0, some 0.9⟩ : Landmark)).get? 11 =
        some ⟨0, 0, 0, some 0.9⟩ := by simp
    have hget12 : (List.replicate 34 (⟨0, 0, 0, some 0.9⟩ : Landmark)).get? 12 =
        some ⟨0, 0, 0, some 0.9⟩ := by simp
    intro p hp
    simp only [SkeletonMapper.LANDMARK_LEFT_SHOULDER,
      SkeletonMapper.LANDMARK_RIGHT_SHOULDER, hget11, hget12,
      List.mem_cons, List.mem_singleton] at hp
    rcases hp with hp | hp | hp
    · exact ⟨_, hp, 0.9, rfl, by norm_num⟩
    · exact ⟨_, hp, 0.9, rfl, by norm_num⟩
    · exact absurd hp (List.not_mem_nil p)
  intro hEq
  simp only [SkeletonMapper.update] at hEq
  rw [if_neg (by simp [SkeletonMapper.new])] at hEq
  rw [if_neg (by norm_num [SkeletonMapper.new])] at hEq
  rw [if_neg (by simp)] at hEq
  rw [if_neg (not_not_intro hvis)] at hEq
  simp only [SkeletonMapper.LANDMARK_LEFT_SHOULDER,
    SkeletonMapper.LANDMARK_RIGHT_SHOULDER, SkeletonMapper.LANDMARK_NOSE] at hEq
  rw [show (List.replicate 34 (⟨0, 0, 0, some 0.9⟩ : Landmark)).get? 11 =
      some ⟨0, 0, 0, some 0.9⟩ by simp] at hEq
  rw [show (List.replicate 34 (⟨0, 0, 0, some 0.9⟩ : Landmark)).get? 12 =
      some ⟨0, 0, 0, some 0.9⟩ by simp] at hEq
  rw [show (List.replicate 34 (⟨0, 0, 0, some 0.9⟩ : Landmark)).get? 0 =
      some ⟨0, 0, 0, some 0.9⟩ by simp] at hEq
  simp at hEq

/-- **C1** (amended): `SkeletonMapper.update` leaves the garment scene
node untouched whenever the left or right shoulder landmark is missing,
has no visibility score, or has visibility ≤ 0.3; the same holds when
the mapper is not initialized, the snapshot is absent, the landmark list
is null, or the landmark count is *less than* 33 (the code's guard is
`length < 33`, not `length ≠ 33`). -/
theorem spec_C1_update_noop_guards :
    ∀ (s : SkeletonMapper.State) (jacket : Option SkeletonMapper.JacketNode)
      (now : ℝ) (poseData : Option SkeletonMapper.PoseData),
      ((∃ pd lms, poseData = some pd ∧ pd.landmarks = some lms ∧
          ¬ SkeletonMapper.arePointsVisible
              [lms.get? SkeletonMapper.LANDMARK_LEFT_SHOULDER,
                lms.get? SkeletonMapper.LANDMARK_RIGHT_SHOULDER] 0.3) ∨
        s.initialized = false ∨ poseData = none ∨
        (∃ pd, poseData = some pd ∧ pd.landmarks = none) ∨
        (∃ pd lms, poseData = some pd ∧ pd.landmarks = some lms ∧
          lms.length < 33)) →
      (SkeletonMapper.update s jacket now poseData).2 = jacket := by
  intro s jacket now poseData h
  rcases h with ⟨pd, lms, hpd, hlms, hvis⟩ | hinit | hnone |
    ⟨pd, hpd, hlms⟩ | ⟨pd, lms, hpd, hlms, hlen⟩
  · subst hpd
    cases jacket with
    | none =>
      simp only [SkeletonMapper.update, hlms]
      split_ifs <;> rfl
    | some jk =>
      simp only [SkeletonMapper.update, hlms]
      split_ifs <;> rfl
  · cases poseData with
    | none => rfl
    | some pd => simp [SkeletonMapper.update, hinit]
  · subst hnone; rfl
  · subst hpd
    cases jacket with
    | none =>
      simp only [SkeletonMapper.update, hlms]
      split_ifs <;> rfl
    | some jk =>
      simp only [SkeletonMapper.update, hlms]
      split_ifs <;> rfl
  · subst hpd
    cases jacket with
    | none =>
      simp only [SkeletonMapper.update, hlms]
      split_ifs <;> rfl
    | some jk =>
      simp only [SkeletonMapper.update, hlms]
      split_ifs <;> rfl

/-- **C1** witness: a ready mapper receiving a 33-landmark snapshot whose
shoulders carry visibility 0.2 (≤ 0.3) leaves the garment node
unchanged. -/
theorem spec_C1_witness :
    (SkeletonMapper.update { SkeletonMapper.new with initialized := true }
        (some ⟨⟨0, 0, 0⟩, ⟨0, 0, 0⟩, ⟨1, 1, 1⟩, false⟩) 100
        (some ⟨some (List.replicate 33 ⟨0, 0, 0, some 0.2⟩)⟩)).2 =
      some ⟨⟨0, 0, 0⟩, ⟨0, 0, 0⟩, ⟨1, 1, 1⟩, false⟩ :=
  spec_C1_update_noop_guards _ _ _ _
    (Or.inl ⟨⟨some (List.replicate 33 ⟨0, 0, 0, some 0.2⟩)⟩,
      List.replicate 33 ⟨0, 0, 0, some 0.2⟩, rfl, rfl, by
        intro hvis
        rcases hvis ((List.replicate 33 (⟨0, 0, 0, some 0.2⟩ : Landmark)).get?
            SkeletonMapper.LANDMARK_LEFT_SHOULDER) (by simp) with
          ⟨lm, hlm, v, hv, hgt⟩
        rw [show (List.replicate 33 (⟨0, 0, 0, some 0.2⟩ : Landmark)).get?
            SkeletonMapper.LANDMARK_LEFT_SHOULDER =
              some ⟨0, 0, 0, some 0.2⟩ by
          simp [SkeletonMapper.LANDMARK_LEFT_SHOULDER]] at hlm
        cases hlm
        rw [show Landmark.visibility ⟨0, 0, 0, some 0.2⟩ = some 0.2 from rfl]
          at hv
        cases hv
        norm_num at hgt⟩)

/-- **C10**: `SkeletonMapper.update` throttles by time — a call arriving
less than the configured `updateInterval` (which the constructor sets to
`1000/60` ms) after the previously accepted update returns immediately
with the mapper state and the garment node completely unchanged, no
matter how valid the pose snapshot is.  (`tAccepted` is the time of the
previously accepted update; `lastUpdateTime` is never below it.) -/
theorem spec_C10_update_throttle :
    (∀ (s : SkeletonMapper.State) (jacket : Option SkeletonMapper.JacketNode)
        (now : ℝ) (poseData : Option SkeletonMapper.PoseData) (tAccepted : ℝ),
      tAccepted ≤ s.lastUpdateTime → now - tAccepted < s.updateInterval →
      SkeletonMapper.update s jacket now poseData = (s, jacket)) ∧
    SkeletonMapper.new.updateInterval = 1000 / 60 := by
  refine ⟨?_, rfl⟩
  intro s jacket now poseData tAccepted hle hlt
  have hthrottle : now - s.lastUpdateTime < s.updateInterval := by linarith
  cases poseData with
  | none => rfl
  | some pd =>
    simp only [SkeletonMapper.update]
    split_ifs <;> rfl

/-- **C10** witness: a call 10 ms after construction (previously accepted
update at time 0) is dropped unchanged. -/
theorem spec_C10_witness :
    SkeletonMapper.update SkeletonMapper.new none 10
        (some ⟨some []⟩) = (SkeletonMapper.new, none) :=
  spec_C10_update_throttle.1 SkeletonMapper.new none 10 (some ⟨some []⟩) 0
    (by norm_num [SkeletonMapper.new]) (by norm_num [SkeletonMapper.new])

end



